import Mathlib

/-!
Verification of the hybrid answer-retrieval engine of the Docubot backend
(`backend/app/services/excel_query_service.py`,
`backend/app/services/rag_service.py`, `backend/app/config.py`).

The Python functions are shallowly embedded as executable Lean definitions:
strings are handled through their character lists, the PostgreSQL stores are
modelled as lists of rows, the SQL statements the engine itself issues are
embedded by their meaning (tenant filter, distinct, count, order-by/limit),
and the LLM and database side effects are oracle parameters together with an
explicit event trace.
-/

namespace Docubot

abbrev Chars := List Char

/-- Whitespace test used by the Python `strip` / `rstrip` calls. -/
def wsChar (c : Char) : Bool := c.isWhitespace

/-- Python `str.rstrip` with the character class given by `p`. -/
def dropRightWhile (p : Char → Bool) (l : Chars) : Chars :=
  (l.reverse.dropWhile p).reverse

/-- Python `str.strip()` on a character list. -/
def trimL (l : Chars) : Chars :=
  dropRightWhile wsChar (l.dropWhile wsChar)

/-- Python `str.lower()` on a character list. -/
def lowerL (l : Chars) : Chars := l.map Char.toLower

/-- Python `str.upper()` on a character list. -/
def upperL (l : Chars) : Chars := l.map Char.toUpper

/-- Python `str.startswith` on character lists. -/
def isPrefixL : Chars → Chars → Bool
  | [], _ => true
  | _ :: _, [] => false
  | a :: as, b :: bs => a = b && isPrefixL as bs

/-- Python `pat in s` (substring containment) on character lists. -/
def isInfixL (pat : Chars) : Chars → Bool
  | [] => isPrefixL pat []
  | l@(_ :: rest) => isPrefixL pat l || isInfixL pat rest

/-- Python `str.split(sep)` for a one-character separator. -/
def splitOnChar (sep : Char) : Chars → List Chars
  | [] => [[]]
  | c :: rest =>
    if c = sep then [] :: splitOnChar sep rest
    else
      match splitOnChar sep rest with
      | [] => [[c]]
      | s :: ss => (c :: s) :: ss

/-- Word character of the regex `\b` metacharacter (Python `\w`). -/
def isWordChar (c : Char) : Bool := c.isAlphanum || c = '_'

/-- Is the character at index `i` (when it exists) a word character? -/
def wordAt (l : Chars) (i : Nat) : Bool :=
  match l.get? i with
  | some c => isWordChar c
  | none => false

/-- The regex `\b` word-boundary test at string position `i`. -/
def boundaryAt (l : Chars) (i : Nat) : Bool :=
  (decide (0 < i) && wordAt l (i - 1)) != wordAt l i

/-- One attempted match of `re.search(r"\b<pat>\b", l)` starting at `i`. -/
def matchWholeWordAt (l pat : Chars) (i : Nat) : Bool :=
  isPrefixL pat (l.drop i) && boundaryAt l i && boundaryAt l (i + pat.length)

/-- `re.search(r"\b" + re.escape(pat) + r"\b", l) is not None`. -/
def containsWholeWordL (pat l : Chars) : Bool :=
  (List.range (l.length + 1)).any (fun i => matchWholeWordAt l pat i)

/- ──────────────────────────────────────────────────
   excel_query_service.py — intent detection
   ────────────────────────────────────────────────── -/

/-- `AGGREGATION_KEYWORDS` of `excel_query_service.py`. -/
def AGGREGATION_KEYWORDS : List String :=
  ["how many", "count", "total", "sum", "average", "avg",
   "maximum", "minimum", "max", "min", "group by", "grouped",
   "percentage", "percent", "%", "number of"]

/-- `ROW_LOOKUP_KEYWORDS` of `excel_query_service.py`. -/
def ROW_LOOKUP_KEYWORDS : List String :=
  ["find", "where", "which", "who has", "who have", "lookup",
   "show me row", "show me rows", "get row", "get rows",
   "list all", "list the", "give me", "show all", "what is the",
   "details of", "details for", "information about", "info about"]

/-- The normalised question: `question.lower().strip()`. -/
def normQuestion (question : String) : Chars := trimL (lowerL question.data)

/-- `detect_intent` of `excel_query_service.py`. -/
def detect_intent (question : String) : String :=
  let q := normQuestion question
  if AGGREGATION_KEYWORDS.any (fun kw => isInfixL kw.data q) then "AGGREGATION"
  else if ROW_LOOKUP_KEYWORDS.any (fun kw => isInfixL kw.data q) then "ROW_LOOKUP"
  else "SEMANTIC"

/- ──────────────────────────────────────────────────
   excel_query_service.py — SQL validation
   ────────────────────────────────────────────────── -/

/-- `FORBIDDEN_KEYWORDS` of `excel_query_service.py`. -/
def FORBIDDEN_KEYWORDS : List String :=
  ["INSERT", "UPDATE", "DELETE", "DROP", "ALTER", "TRUNCATE",
   "CREATE", "GRANT", "REVOKE", "EXEC", "EXECUTE",
   "INTO", "--", "/*"]

/-- The tenant-filter reference the validator requires. -/
def CHATBOT_ID_REF : String := "chatbot_id"

/-- The non-empty trimmed statements of `sql.split(";")`. -/
def nonEmptyStatements (l : Chars) : List Chars :=
  ((splitOnChar ';' l).map trimL).filter (fun s => s ≠ [])

/-- `validate_sql` of `excel_query_service.py`. -/
def validate_sql (sql : String) : Bool × String :=
  if trimL sql.data = [] then (false, "Empty SQL query")
  else
    let sqlUpper : Chars := trimL (upperL sql.data)
    if !isPrefixL "SELECT".data sqlUpper then (false, "Query must start with SELECT")
    else if 1 < (nonEmptyStatements sql.data).length then
      (false, "Multiple statements not allowed")
    else
      match FORBIDDEN_KEYWORDS.find? (fun kw => containsWholeWordL kw.data sqlUpper) with
      | some kw => (false, "Forbidden keyword: " ++ kw)
      | none =>
        if !isInfixL CHATBOT_ID_REF.data (lowerL sql.data) then
          (false, "Query must include chatbot_id filter")
        else (true, "")

/- ──────────────────────────────────────────────────
   config.py — Settings (RAG tuning values)
   ────────────────────────────────────────────────── -/

/-- `Settings.RAG_TOP_K` of `config.py`. -/
def RAG_TOP_K : Nat := 5

/-- `Settings.RAG_SIMILARITY_THRESHOLD` of `config.py` (0.20). -/
def RAG_SIMILARITY_THRESHOLD : ℚ := mkRat 1 5

/-- `Settings.RAG_MAX_CONTEXT_TOKENS` of `config.py`. -/
def RAG_MAX_CONTEXT_TOKENS : Nat := 40000

/- ──────────────────────────────────────────────────
   rag_service.py — similarity_search
   ────────────────────────────────────────────────── -/

/-- A persisted row of the `embeddings` table (pgvector store). -/
structure EmbRow where
  id : Nat
  chatbot_id : String
  content : String
  metadata_json : String
  embedding : List ℚ
deriving Repr, DecidableEq

/-- One retrieved chunk: the dict `similarity_search` builds from a fetched row. -/
structure RetrievedChunk where
  id : Nat
  content : String
  metadata : String
  similarity : ℚ
deriving Repr, DecidableEq

/-- The SELECT list of the pgvector query: id, content, metadata and the
similarity `1 - (embedding <=> query)` computed by the abstract scoring
function `score`. -/
def scoreRow (score : List ℚ → List ℚ → ℚ) (qv : List ℚ) (r : EmbRow) : RetrievedChunk :=
  { id := r.id, content := r.content, metadata := r.metadata_json,
    similarity := score qv r.embedding }

/-- Descending insertion by similarity (model of `ORDER BY embedding <=> q`). -/
def insertDescBySim (c : RetrievedChunk) : List RetrievedChunk → List RetrievedChunk
  | [] => [c]
  | d :: rest =>
    if d.similarity < c.similarity then c :: d :: rest else d :: insertDescBySim c rest

/-- Sort a candidate list by descending similarity. -/
def sortDescBySim : List RetrievedChunk → List RetrievedChunk
  | [] => []
  | c :: rest => insertDescBySim c (sortDescBySim rest)

/-- The pgvector query of `similarity_search`: rows of the tenant `cid`
(`WHERE chatbot_id = :chatbot_id`), ordered by descending similarity,
truncated to `fetch_limit`. -/
def fetchCandidates (store : List EmbRow) (score : List ℚ → List ℚ → ℚ)
    (cid : String) (qv : List ℚ) (fetchLimit : Nat) : List RetrievedChunk :=
  (sortDescBySim ((store.filter (fun r => r.chatbot_id = cid)).map (scoreRow score qv))).take
    fetchLimit

/-- Python `top_k or settings.RAG_TOP_K`: `None` and `0` are falsy. -/
def effTopK (k? : Option Nat) : Nat :=
  match k? with
  | none => RAG_TOP_K
  | some k => if k = 0 then RAG_TOP_K else k

/-- Python `similarity_threshold or settings.RAG_SIMILARITY_THRESHOLD`:
`None` and `0.0` are falsy. -/
def effThreshold (t? : Option ℚ) : ℚ :=
  match t? with
  | none => RAG_SIMILARITY_THRESHOLD
  | some t => if t = 0 then RAG_SIMILARITY_THRESHOLD else t

/-- The threshold-filtered candidate list of `similarity_search`
(`sim >= similarity_threshold`, candidates fetched with limit `top_k * 2`). -/
def thresholdFiltered (store : List EmbRow) (score : List ℚ → List ℚ → ℚ)
    (cid : String) (qv : List ℚ) (k? : Option Nat) (t? : Option ℚ) : List RetrievedChunk :=
  (fetchCandidates store score cid qv (effTopK k? * 2)).filter
    (fun c => effThreshold t? ≤ c.similarity)

/-- The guard `filtered and filtered[0]["similarity"] > 0.75`. -/
def confidentMatch : List RetrievedChunk → Bool
  | [] => false
  | c :: _ => decide (mkRat 3 4 < c.similarity)

/-- The adaptive result count of `similarity_search`. -/
def adaptiveK (k : Nat) (filtered : List RetrievedChunk) : Nat :=
  if confidentMatch filtered then min k (max 3 filtered.length)
  else min k filtered.length

/-- `filtered[:adaptive_k]`: the selection before token-budget trimming. -/
def preTrimSelection (store : List EmbRow) (score : List ℚ → List ℚ → ℚ)
    (cid : String) (qv : List ℚ) (k? : Option Nat) (t? : Option ℚ) : List RetrievedChunk :=
  let filtered := thresholdFiltered store score cid qv k? t?
  filtered.take (adaptiveK (effTopK k?) filtered)

/-- The token-budget trimming loop of `similarity_search`; `tok` is the
estimated token counter (`count_tokens` of `text_chunker.py`, an external
tiktoken call). The loop breaks before a chunk that would overflow. -/
def tokenTrim (tok : String → Nat) (maxCtx : Nat) : List RetrievedChunk → Nat → List RetrievedChunk
  | [], _ => []
  | c :: rest, total =>
    if maxCtx < total + tok c.content then []
    else c :: tokenTrim tok maxCtx rest (total + tok c.content)

/-- `similarity_search` of `rag_service.py`. -/
def similarity_search (store : List EmbRow) (score : List ℚ → List ℚ → ℚ)
    (tok : String → Nat) (cid : String) (qv : List ℚ)
    (k? : Option Nat) (t? : Option ℚ) : List RetrievedChunk :=
  tokenTrim tok RAG_MAX_CONTEXT_TOKENS (preTrimSelection store score cid qv k? t?) 0

/- ──────────────────────────────────────────────────
   excel_query_service.py — schema extraction
   ────────────────────────────────────────────────── -/

/-- A JSONB scalar stored in `row_data`. -/
inductive JValue where
  | jint : Int → JValue
  | jnum : ℚ → JValue
  | jstr : String → JValue
deriving Repr, DecidableEq

/-- A JSONB object (Python dict, insertion ordered). -/
abbrev RowData := List (String × JValue)

/-- A persisted row of the `excel_rows` table. -/
structure ExcelRow where
  id : Nat
  chatbot_id : String
  document_id : String
  sheet_name : String
  row_number : Nat
  row_data : RowData
deriving Repr, DecidableEq

/-- `check_has_excel_data`: `count(*) WHERE chatbot_id = :cid > 0`. -/
def check_has_excel_data (store : List ExcelRow) (cid : String) : Bool :=
  decide (0 < (store.filter (fun r => r.chatbot_id = cid)).length)

structure ColumnInfo where
  name : String
  type : String
deriving Repr, DecidableEq

structure SheetInfo where
  name : String
  columns : List ColumnInfo
  row_count : Nat
deriving Repr, DecidableEq

structure ExcelSchema where
  sheets : List SheetInfo
  total_rows : Nat
deriving Repr, DecidableEq

/-- Type inference of `get_excel_schema`: int, float, anything else. -/
def inferColumnType : JValue → String
  | .jint _ => "integer"
  | .jnum _ => "numeric"
  | .jstr _ => "text"

/-- `SELECT DISTINCT sheet_name` modelled as first-occurrence deduplication. -/
def dedupFirst (l : List String) : List String :=
  l.foldl (fun acc s => if s ∈ acc then acc else acc ++ [s]) []

/-- One iteration of the sheet loop of `get_excel_schema`: sample one row,
count the sheet rows, infer the column types; a sheet whose sample is a
falsy (empty) JSONB object is skipped after its rows were counted. -/
def sheetStep (tenantRows : List ExcelRow) (acc : List SheetInfo × Nat)
    (sheet : String) : List SheetInfo × Nat :=
  let sheetRows := tenantRows.filter (fun r => r.sheet_name = sheet)
  let cnt := sheetRows.length
  let total := acc.2 + cnt
  match sheetRows.head? with
  | none => (acc.1, total)
  | some r =>
    if r.row_data = [] then (acc.1, total)
    else
      (acc.1 ++ [{ name := sheet,
                   columns := r.row_data.map (fun kv => { name := kv.1, type := inferColumnType kv.2 }),
                   row_count := cnt }],
       total)

/-- `get_excel_schema` of `excel_query_service.py`: every read it issues
(distinct sheets, sample row, counts) filters on `chatbot_id = cid`. -/
def get_excel_schema (store : List ExcelRow) (cid : String) : ExcelSchema :=
  let tenantRows := store.filter (fun r => r.chatbot_id = cid)
  let sheetNames := dedupFirst (tenantRows.map (fun r => r.sheet_name))
  let p := sheetNames.foldl (sheetStep tenantRows) ([], 0)
  { sheets := p.1, total_rows := p.2 }

/- ──────────────────────────────────────────────────
   excel_query_service.py — safe execution
   ────────────────────────────────────────────────── -/

/-- The row-cap token looked for case-insensitively. -/
def LIMIT_TOKEN : String := "LIMIT"

/-- The LIMIT safeguard of `execute_safe_query`:
`sql.rstrip().rstrip(";") + " LIMIT 1000"` when no LIMIT is present. -/
def addLimitSafeguard (sql : String) : String :=
  if isInfixL LIMIT_TOKEN.data (upperL sql.data) then sql
  else ⟨dropRightWhile (fun c => c = ';') (dropRightWhile wsChar sql.data) ++ (" LIMIT 1000").data⟩

/-- `execute_safe_query` of `excel_query_service.py`: run the (already
validated) query with the LIMIT safeguard applied and `chatbot_id` bound
as a parameter; `run` is the database oracle. -/
def execute_safe_query (run : String → String → List RowData)
    (sql : String) (cid : String) : List RowData :=
  run (addLimitSafeguard sql) cid

/- ──────────────────────────────────────────────────
   Orchestration — process_excel_query and process_chat_message
   ────────────────────────────────────────────────── -/

/-- The observable side-effect events of one request: the schema-inspection
query, the SQL-generation LLM call, the validator run, the execution of a
generated statement (recorded with the statement text), and a
response-composition call of the completion gateway. -/
inductive CallEv where
  | schemaQuery : CallEv
  | generatorCall : CallEv
  | validatorCall : CallEv
  | executorCall : String → CallEv
  | completionCall : CallEv
deriving Repr, DecidableEq

/-- The oracles for the effectful collaborators: `genSql` is the outcome of
`generate_sql` (an LLM call that may raise), `runSql` the outcome of
`db.execute` on a generated statement (given the executed text and the bound
`chatbot_id` parameter), `formatLlm` the completion call inside
`format_sql_response`, and `composeLlm` the completion call of the semantic
RAG path. -/
structure LlmWorld where
  genSql : Except String String
  runSql : String → String → Except String (List RowData)
  formatLlm : Except String String
  composeLlm : String

/-- The fixed empty-evidence reply of `format_sql_response`. -/
def NO_DATA_MESSAGE : String := "I couldn\x27t find any matching data for your question."

/-- `format_sql_response` of `excel_query_service.py`: an empty result list
short-circuits to the fixed message with no completion call; otherwise a
completion call formats the rows (its prompt differs for single-value
aggregations, its outcome is `formatLlm` either way). -/
def format_sql_response (w : LlmWorld) (_question : String) (sql_result : List RowData)
    (_intent : String) : Except String String × List CallEv :=
  if sql_result = [] then (Except.ok NO_DATA_MESSAGE, [])
  else (w.formatLlm, [CallEv.completionCall])

/-- `process_excel_query` of `excel_query_service.py`: the structured path.
Returns the answer (`some`) or a declination (`none`), with the trace of
effect events it issued. -/
def process_excel_query (w : LlmWorld) (store : List ExcelRow)
    (cid question : String) : Option String × List CallEv :=
  if detect_intent question = "SEMANTIC" then (none, [])
  else
    let schema := get_excel_schema store cid
    if schema.sheets = [] then (none, [CallEv.schemaQuery])
    else
      match w.genSql with
      | .error _ => (none, [CallEv.schemaQuery, CallEv.generatorCall])
      | .ok sql =>
        if (validate_sql sql).1 = false then
          (none, [CallEv.schemaQuery, CallEv.generatorCall, CallEv.validatorCall])
        else
          match w.runSql (addLimitSafeguard sql) cid with
          | .error _ =>
            (none, [CallEv.schemaQuery, CallEv.generatorCall, CallEv.validatorCall,
                    CallEv.executorCall sql])
          | .ok rows =>
            match format_sql_response w question rows (detect_intent question) with
            | (.ok resp, evs) =>
              (some resp, [CallEv.schemaQuery, CallEv.generatorCall, CallEv.validatorCall,
                           CallEv.executorCall sql] ++ evs)
            | (.error _, evs) =>
              (none, [CallEv.schemaQuery, CallEv.generatorCall, CallEv.validatorCall,
                      CallEv.executorCall sql] ++ evs)

/-- One provenance entry of the response. -/
structure SourceRef where
  content : String
  similarity : ℚ
deriving Repr, DecidableEq

/-- The result of `process_chat_message`: the answer text and its sources. -/
structure ChatResult where
  response : String
  sources : List SourceRef
deriving Repr, DecidableEq

/-- The semantic RAG path of `process_chat_message`: retrieve context with
the default `top_k` and threshold, then let the completion gateway answer;
the first three chunks (content truncated to 200 characters) become the
provenance. -/
def semanticPath (w : LlmWorld) (embStore : List EmbRow)
    (score : List ℚ → List ℚ → ℚ) (tok : String → Nat)
    (cid : String) (qEmb : List ℚ) : ChatResult × List CallEv :=
  let chunks := similarity_search embStore score tok cid qEmb none none
  ({ response := w.composeLlm,
     sources := (chunks.take 3).map
       (fun c => { content := c.content.take 200, similarity := c.similarity }) },
   [CallEv.completionCall])

/-- `process_chat_message` of `rag_service.py`: the hybrid router. The
structured path runs first when the tenant has Excel rows; a `none` from it
falls through to the semantic path. -/
def process_chat_message (w : LlmWorld) (excelStore : List ExcelRow)
    (embStore : List EmbRow) (score : List ℚ → List ℚ → ℚ) (tok : String → Nat)
    (cid question : String) (qEmb : List ℚ) : ChatResult × List CallEv :=
  if check_has_excel_data excelStore cid then
    match process_excel_query w excelStore cid question with
    | (some resp, evs) =>
      ({ response := resp,
         sources := [{ content := "Excel/CSV structured query", similarity := 1 }] }, evs)
    | (none, evs) =>
      let s := semanticPath w embStore score tok cid qEmb
      (s.1, evs ++ s.2)
  else
    let s := semanticPath w embStore score tok cid qEmb
    (s.1, s.2)

/- ──────────────────────────────────────────────────
   Helper lemmas: trimming and splitting
   ────────────────────────────────────────────────── -/

/- ──────────────────────────────────────────────────
   Specification-side predicates, concrete stores and worlds
   ────────────────────────────────────────────────── -/

/-- The acceptance condition of the validator as the specification states
it: non-empty after trimming, case-insensitively starts with SELECT,
exactly one non-empty statement when split on the semicolon, no forbidden
keyword as a whole word, and a case-insensitive `chatbot_id` reference. -/
def specValidatorOk (q : String) : Prop :=
  trimL q.data ≠ [] ∧
  isPrefixL "SELECT".data (trimL (upperL q.data)) = true ∧
  (nonEmptyStatements q.data).length = 1 ∧
  (∀ kw ∈ FORBIDDEN_KEYWORDS, containsWholeWordL kw.data (trimL (upperL q.data)) = false) ∧
  isInfixL CHATBOT_ID_REF.data (lowerL q.data) = true

/-- The concrete injected query of the C5 analysis: a single SELECT with a
tenant reference followed by a space-delimited SQL line comment. -/
def INJECTED_COMMENT_SQL : String :=
  "SELECT row_data FROM excel_rows WHERE chatbot_id = :chatbot_id -- hidden comment"

/-- The claim-side condition: the question contains (case-insensitively, as
a substring of the normalised question) some aggregation keyword. -/
def questionHasAggKeyword (question : String) : Bool :=
  AGGREGATION_KEYWORDS.any (fun kw => isInfixL kw.data (normQuestion question))

/-- The claim-side condition: the question contains some row-lookup keyword. -/
def questionHasLookupKeyword (question : String) : Bool :=
  ROW_LOOKUP_KEYWORDS.any (fun kw => isInfixL kw.data (normQuestion question))

/-- Concrete store of one chunk used by the C6 witness. -/
def c6store : List EmbRow :=
  [{ id := 7, chatbot_id := "tenant-b", content := "refund policy text",
     metadata_json := "", embedding := [1] }]

/-- Constant scoring function used by the C6 witness. -/
def c6score : List ℚ → List ℚ → ℚ := fun _ _ => mkRat 1 2

/-- Constant token estimator used by the C6 witness. -/
def c6tok : String → Nat := fun _ => 7

/-- Two-row tenant store of the C7 counterexample. -/
def c7store : List EmbRow :=
  [{ id := 1, chatbot_id := "tenant-a", content := "alpha", metadata_json := "", embedding := [] },
   { id := 2, chatbot_id := "tenant-a", content := "beta", metadata_json := "", embedding := [] }]

/-- Constant high score (0.8, a confident match) of the C7 counterexample. -/
def c7score : List ℚ → List ℚ → ℚ := fun _ _ => mkRat 4 5

/-- Low-similarity store (score 0.1, below the default 0.2 threshold but
above a literal zero threshold) of the C10 demonstration. -/
def c10store : List EmbRow :=
  [{ id := 3, chatbot_id := "tenant-c", content := "weak match", metadata_json := "", embedding := [] }]

/-- Constant low score of the C10 demonstration. -/
def c10score : List ℚ → List ℚ → ℚ := fun _ _ => mkRat 1 10

/-- A world whose generation and execution oracles fail and whose semantic
composition answers with a fixed text. -/
def w0 : LlmWorld :=
  { genSql := Except.error "llm down",
    runSql := fun _ _ => Except.error "db down",
    formatLlm := Except.ok "formatted",
    composeLlm := "semantic answer" }

/-- One structured row of the tenant `tenant-x`. -/
def excelRow1 : ExcelRow :=
  { id := 1, chatbot_id := "tenant-x", document_id := "doc-1", sheet_name := "Sheet1",
    row_number := 1, row_data := [("Amount", JValue.jint 5)] }

/-- A generated tenant-filtered aggregate query accepted by the validator. -/
def VALID_TENANT_SQL : String :=
  "SELECT count(id) FROM excel_rows WHERE chatbot_id = :chatbot_id"

/-- A world whose generator emits `VALID_TENANT_SQL` and whose executor and
formatter succeed. -/
def wExec : LlmWorld :=
  { genSql := Except.ok VALID_TENANT_SQL,
    runSql := fun _ _ => Except.ok [[("count", JValue.jint 3)]],
    formatLlm := Except.ok "There are 3 rows.",
    composeLlm := "semantic answer" }

theorem mem_of_mem_dropWhile {p : Char → Bool} {l : Chars} {c : Char}
    (h : c ∈ l.dropWhile p) : c ∈ l := by
  have hsplit : l.takeWhile p ++ l.dropWhile p = l := List.takeWhile_append_dropWhile p l
  rw [← hsplit]
  exact List.mem_append_right _ h

theorem mem_dropRightWhile {p : Char → Bool} {l : Chars} {c : Char}
    (h : c ∈ dropRightWhile p l) : c ∈ l := by
  unfold dropRightWhile at h
  rw [List.mem_reverse] at h
  have := mem_of_mem_dropWhile h
  simpa using this

theorem mem_trimL {l : Chars} {c : Char} (h : c ∈ trimL l) : c ∈ l :=
  mem_of_mem_dropWhile (mem_dropRightWhile h)

theorem dropWhile_eq_nil_iff_all {p : Char → Bool} {l : Chars} :
    l.dropWhile p = [] ↔ ∀ c ∈ l, p c = true := by
  induction l with
  | nil => simp
  | cons a rest ih =>
    by_cases h : p a = true
    · simp [List.dropWhile, h, ih]
    · simp [List.dropWhile, h]

theorem dropRightWhile_eq_nil_iff {p : Char → Bool} {l : Chars} :
    dropRightWhile p l = [] ↔ ∀ c ∈ l, p c = true := by
  unfold dropRightWhile
  rw [List.reverse_eq_nil_iff, dropWhile_eq_nil_iff_all]
  constructor
  · intro h c hc; exact h c (List.mem_reverse.mpr hc)
  · intro h c hc; exact h c (List.mem_reverse.mp hc)

theorem trimL_eq_nil_iff {l : Chars} : trimL l = [] ↔ ∀ c ∈ l, wsChar c = true := by
  unfold trimL
  rw [dropRightWhile_eq_nil_iff]
  constructor
  · intro h c hc
    have hsplit : l.takeWhile wsChar ++ l.dropWhile wsChar = l :=
      List.takeWhile_append_dropWhile wsChar l
    rw [← hsplit] at hc
    rcases List.mem_append.mp hc with h1 | h1
    · exact List.mem_takeWhile_imp h1
    · exact h c h1
  · intro h c hc; exact h c (mem_of_mem_dropWhile hc)

theorem isPrefixL_cons {a : Char} {as l : Chars} (h : isPrefixL (a :: as) l = true) :
    ∃ bs, l = a :: bs ∧ isPrefixL as bs = true := by
  cases l with
  | nil => simp [isPrefixL] at h
  | cons b bs =>
    simp [isPrefixL] at h
    exact ⟨bs, by rw [h.1], h.2⟩

theorem splitOnChar_cons (sep c : Char) (rest : Chars) :
    splitOnChar sep (c :: rest) =
      if c = sep then [] :: splitOnChar sep rest
      else
        match splitOnChar sep rest with
        | [] => [[c]]
        | s :: ss => (c :: s) :: ss := rfl

theorem splitOnChar_ne_nil (sep : Char) (l : Chars) : splitOnChar sep l ≠ [] := by
  cases l with
  | nil => simp [splitOnChar]
  | cons c rest =>
    rw [splitOnChar_cons]
    by_cases h : c = sep
    · simp [h]
    · simp only [h, if_false]
      cases hs : splitOnChar sep rest <;> simp

theorem exists_statement_of_solid_char {l : Chars} {c : Char}
    (hc : c ∈ l) (hw : wsChar c = false) (hs : c ≠ ';') :
    ∃ s ∈ splitOnChar ';' l, trimL s ≠ [] := by
  induction l with
  | nil => cases hc
  | cons a rest ih =>
    by_cases ha : a = ';'
    · have hcr : c ∈ rest := by
        rcases List.mem_cons.mp hc with h | h
        · exact absurd (h.trans ha) hs
        · exact h
      rcases ih hcr with ⟨s, hsmem, hsne⟩
      refine ⟨s, ?_, hsne⟩
      have hstep : splitOnChar ';' (a :: rest) = [] :: splitOnChar ';' rest := by
        rw [splitOnChar_cons]; simp [ha]
      rw [hstep]
      exact List.mem_cons_of_mem _ hsmem
    · rcases hsplit : splitOnChar ';' rest with _ | ⟨s, ss⟩
      · exact absurd hsplit (splitOnChar_ne_nil ';' rest)
      · have hform : splitOnChar ';' (a :: rest) = (a :: s) :: ss := by
          rw [splitOnChar_cons]; simp [ha, hsplit]
        have htrim : ∀ t : Chars, trimL t ≠ [] → trimL (a :: t) ≠ [] := by
          intro t hne hnil
          exact hne (trimL_eq_nil_iff.mpr
            (fun d hd => trimL_eq_nil_iff.mp hnil d (List.mem_cons_of_mem a hd)))
        rcases List.mem_cons.mp hc with h | h
        · refine ⟨a :: s, by rw [hform]; exact List.mem_cons_self _ _, ?_⟩
          intro hnil
          have := trimL_eq_nil_iff.mp hnil c (by rw [h]; exact List.mem_cons_self a s)
          rw [hw] at this
          exact Bool.false_ne_true this
        · rcases ih h with ⟨t, htmem, htne⟩
          rw [hsplit] at htmem
          rcases List.mem_cons.mp htmem with h1 | h1
          · refine ⟨a :: s, by rw [hform]; exact List.mem_cons_self _ _, ?_⟩
            exact htrim s (h1 ▸ htne)
          · refine ⟨t, ?_, htne⟩
            rw [hform]
            exact List.mem_cons_of_mem _ h1

theorem one_le_nonEmptyStatements {l : Chars}
    (h : ∃ c ∈ l, wsChar c = false ∧ c ≠ ';') :
    1 ≤ (nonEmptyStatements l).length := by
  rcases h with ⟨c, hc, hw, hs⟩
  rcases exists_statement_of_solid_char hc hw hs with ⟨s, hsmem, hsne⟩
  have hmem : trimL s ∈ nonEmptyStatements l := by
    unfold nonEmptyStatements
    exact List.mem_filter.mpr ⟨List.mem_map.mpr ⟨s, hsmem, rfl⟩, by simpa using hsne⟩
  exact List.length_pos.mpr (List.ne_nil_of_mem hmem)

theorem solid_of_toUpper_S {c : Char} (h : Char.toUpper c = 'S') :
    wsChar c = false ∧ c ≠ ';' := by
  constructor
  · by_contra hws
    rw [Bool.not_eq_false] at hws
    have hip := hws
    simp only [wsChar, Char.isWhitespace, Bool.or_eq_true, decide_eq_true_eq] at hip
    rcases hip with ((h1 | h1) | h1) | h1 <;> (subst h1; exact absurd h (by decide))
  · intro hc
    subst hc
    exact absurd h (by decide)

theorem one_statement_of_select {q : String}
    (hB : isPrefixL "SELECT".data (trimL (upperL q.data)) = true) :
    1 ≤ (nonEmptyStatements q.data).length := by
  have hB' : isPrefixL ('S' :: "ELECT".data) (trimL (upperL q.data)) = true := hB
  rcases isPrefixL_cons hB' with ⟨bs, heq, _⟩
  have hSmem : 'S' ∈ trimL (upperL q.data) := by
    rw [heq]; exact List.mem_cons_self _ _
  have hSup : 'S' ∈ upperL q.data := mem_trimL hSmem
  rcases List.mem_map.mp hSup with ⟨c, hcq, hcup⟩
  rcases solid_of_toUpper_S hcup with ⟨hw, hs⟩
  exact one_le_nonEmptyStatements ⟨c, hcq, hw, hs⟩

/- ──────────────────────────────────────────────────
   Validator characterisation
   ────────────────────────────────────────────────── -/

theorem validate_sql_true_iff (q : String) :
    (validate_sql q).1 = true ↔ specValidatorOk q := by
  unfold specValidatorOk
  by_cases h1 : trimL q.data = []
  · have hv : (validate_sql q).1 = false := by simp [validate_sql, h1]
    rw [hv]
    simp [h1]
  · by_cases h2 : isPrefixL "SELECT".data (trimL (upperL q.data)) = true
    · by_cases h3 : 1 < (nonEmptyStatements q.data).length
      · have hv : (validate_sql q).1 = false := by
          simp [validate_sql, h1, h2, h3]
        rw [hv]
        constructor
        · intro h; exact absurd h (by simp)
        · intro hs; exact absurd h3 (by rw [hs.2.2.1]; exact lt_irrefl 1)
      · have hlen : (nonEmptyStatements q.data).length = 1 :=
          le_antisymm (not_lt.mp h3) (one_statement_of_select h2)
        cases hfind : FORBIDDEN_KEYWORDS.find?
            (fun kw => containsWholeWordL kw.data (trimL (upperL q.data))) with
        | some kw =>
          have hkwmem := List.mem_of_find?_eq_some hfind
          have hkwtrue := List.find?_some hfind
          have hv : (validate_sql q).1 = false := by
            simp [validate_sql, h1, h2, h3, hfind]
          rw [hv]
          constructor
          · intro h; exact absurd h (by simp)
          · intro hs
            have hfalse := hs.2.2.2.1 kw hkwmem
            rw [hfalse] at hkwtrue
            exact absurd hkwtrue (by simp)
        | none =>
          have hall := List.find?_eq_none.mp hfind
          by_cases h5 : isInfixL CHATBOT_ID_REF.data (lowerL q.data) = true
          · have hv : (validate_sql q).1 = true := by
              simp [validate_sql, h1, h2, h3, hfind, h5]
            rw [hv]
            constructor
            · intro _
              exact ⟨h1, h2, hlen, fun kw hkw => by simpa using hall kw hkw, h5⟩
            · intro _; rfl
          · have hv : (validate_sql q).1 = false := by
              simp [validate_sql, h1, h2, h3, hfind, Bool.eq_false_iff.mpr h5]
            rw [hv]
            constructor
            · intro h; exact absurd h (by simp)
            · intro hs; exact absurd hs.2.2.2.2 h5
    · have hv : (validate_sql q).1 = false := by
        simp [validate_sql, h1, Bool.eq_false_iff.mpr h2]
      rw [hv]
      constructor
      · intro h; exact absurd h (by simp)
      · intro hs; exact absurd hs.2.1 h2

/-- C4: `validate_sql q` returns ok exactly when `q` is non-empty after
trimming, starts case-insensitively with SELECT, splitting on the semicolon
yields exactly one non-empty statement, no forbidden keyword occurs as a
whole word, and the tenant-filter reference `chatbot_id` occurs
case-insensitively; in particular a minimal valid single-statement SELECT
with a `chatbot_id` tenant filter is accepted, and queries that do not
start with SELECT, contain a second statement after a semicolon, or miss
the tenant reference are rejected. -/
theorem C4_validator_characterisation :
    (∀ q : String, (validate_sql q).1 = true ↔ specValidatorOk q) ∧
    (validate_sql "SELECT * FROM excel_rows WHERE chatbot_id = :chatbot_id").1 = true ∧
    (validate_sql "UPDATE excel_rows SET row_data = NULL WHERE chatbot_id = :chatbot_id").1 = false ∧
    (validate_sql "SELECT 1 WHERE chatbot_id = :chatbot_id; DELETE FROM excel_rows").1 = false ∧
    (validate_sql "SELECT * FROM excel_rows").1 = false :=
  ⟨validate_sql_true_iff, by decide, by decide, by decide, by decide⟩

/-- C5 (code bug): `validate_sql` accepts a query that contains the
comment-injection token `--` because the validator wraps every forbidden
keyword, the comment tokens included, in regex word boundaries, and
`\b--\b` cannot match a comment token delimited by spaces; the forbidden
list names `--` and `/*` precisely to decline comment injection. The
alphabetic keywords are matched as intended (whole words, so substrings of
identifiers do not trigger), as the last two conjuncts show. -/
theorem C5_comment_token_bypasses_validator :
    validate_sql INJECTED_COMMENT_SQL = (true, "") ∧
    isInfixL "--".data INJECTED_COMMENT_SQL.data = true ∧
    containsWholeWordL "--".data (trimL (upperL INJECTED_COMMENT_SQL.data)) = false ∧
    (validate_sql "SELECT updated_at FROM excel_rows WHERE chatbot_id = :chatbot_id").1 = true ∧
    (validate_sql "SELECT a FROM excel_rows WHERE chatbot_id = :chatbot_id AND b IN (SELECT 1) UNION SELECT x INTO y").1 = false := by
  exact ⟨by decide, by decide, by decide, by decide, by decide⟩

/-- C9: `detect_intent` is a pure function of the question; any question
containing an aggregation keyword classifies as AGGREGATION even when a
row-lookup keyword also occurs, a question with only a row-lookup keyword
classifies as ROW_LOOKUP, and a question with neither classifies as
SEMANTIC. -/
theorem C9_intent_classification (question : String) :
    (questionHasAggKeyword question = true → detect_intent question = "AGGREGATION") ∧
    (questionHasAggKeyword question = false → questionHasLookupKeyword question = true →
      detect_intent question = "ROW_LOOKUP") ∧
    (questionHasAggKeyword question = false → questionHasLookupKeyword question = false →
      detect_intent question = "SEMANTIC") := by
  have hA : detect_intent question =
      (if questionHasAggKeyword question then "AGGREGATION"
       else if questionHasLookupKeyword question then "ROW_LOOKUP" else "SEMANTIC") := rfl
  refine ⟨fun h => ?_, fun h1 h2 => ?_, fun h1 h2 => ?_⟩ <;> rw [hA]
  · rw [if_pos h]
  · rw [if_neg (by simp [h1]), if_pos h2]
  · rw [if_neg (by simp [h1]), if_neg (by simp [h2])]

/-- Witness for C9 at concrete questions: the priority rule (a question
with both an aggregation and a row-lookup keyword is AGGREGATION), the
lookup case and the semantic default. -/
theorem C9_intent_classification_witness :
    detect_intent "how many users find this useful" = "AGGREGATION" ∧
    detect_intent "find the user row" = "ROW_LOOKUP" ∧
    detect_intent "hello to you" = "SEMANTIC" :=
  ⟨(C9_intent_classification "how many users find this useful").1 (by decide),
   (C9_intent_classification "find the user row").2.1 (by decide) (by decide),
   (C9_intent_classification "hello to you").2.2 (by decide) (by decide)⟩

/- ──────────────────────────────────────────────────
   Retrieval lemmas and claims C6, C7, C10
   ────────────────────────────────────────────────── -/

theorem tokenTrim_sublist (tok : String → Nat) (B : Nat) :
    ∀ (l : List RetrievedChunk) (total : Nat), List.Sublist (tokenTrim tok B l total) l := by
  intro l
  induction l with
  | nil => intro total; simp [tokenTrim]
  | cons c rest ih =>
    intro total
    unfold tokenTrim
    by_cases h : B < total + tok c.content
    · rw [if_pos h]; exact List.nil_sublist _
    · rw [if_neg h]
      exact (ih (total + tok c.content)).cons₂ c

theorem tokenTrim_sum (tok : String → Nat) (B : Nat) :
    ∀ (l : List RetrievedChunk) (total : Nat), total ≤ B →
      total + ((tokenTrim tok B l total).map (fun c => tok c.content)).sum ≤ B := by
  intro l
  induction l with
  | nil => intro total h; simpa [tokenTrim]
  | cons c rest ih =>
    intro total h
    unfold tokenTrim
    by_cases hb : B < total + tok c.content
    · rw [if_pos hb]; simpa
    · rw [if_neg hb]
      have h2 := ih (total + tok c.content) (not_lt.mp hb)
      simp only [List.map_cons, List.sum_cons]
      omega

theorem adaptiveK_le (k : Nat) (filtered : List RetrievedChunk) :
    adaptiveK k filtered ≤ k := by
  unfold adaptiveK
  by_cases h : confidentMatch filtered = true
  · rw [if_pos h]; exact Nat.min_le_left _ _
  · rw [if_neg h]; exact Nat.min_le_left _ _

theorem effTopK_of_pos {k : Nat} (hk : 1 ≤ k) : effTopK (some k) = k := by
  show (if k = 0 then RAG_TOP_K else k) = k
  rw [if_neg (Nat.one_le_iff_ne_zero.mp hk)]

theorem le_effThreshold (t : ℚ) : t ≤ effThreshold (some t) := by
  show t ≤ if t = 0 then RAG_SIMILARITY_THRESHOLD else t
  by_cases h : t = 0
  · rw [if_pos h, h]
    decide
  · rw [if_neg h]

theorem mem_thresholdFiltered_sim {store : List EmbRow} {score : List ℚ → List ℚ → ℚ}
    {cid : String} {qv : List ℚ} {k? : Option Nat} {t? : Option ℚ} {c : RetrievedChunk}
    (h : c ∈ thresholdFiltered store score cid qv k? t?) :
    effThreshold t? ≤ c.similarity := by
  unfold thresholdFiltered at h
  have := List.mem_filter.mp h
  simpa using this.2

/-- C6: for every tenant, query vector, `top_k ≥ 1` and threshold, the
retrieved list has at most `top_k` items, every item scores at least the
threshold, and the estimated token counts of the items sum to at most
`RAG_MAX_CONTEXT_TOKENS`. -/
theorem C6_similarity_search_bounds (store : List EmbRow) (score : List ℚ → List ℚ → ℚ)
    (tok : String → Nat) (cid : String) (qv : List ℚ) (k : Nat) (t : ℚ) (hk : 1 ≤ k) :
    (similarity_search store score tok cid qv (some k) (some t)).length ≤ k ∧
    (∀ c ∈ similarity_search store score tok cid qv (some k) (some t), t ≤ c.similarity) ∧
    ((similarity_search store score tok cid qv (some k) (some t)).map
      (fun c => tok c.content)).sum ≤ RAG_MAX_CONTEXT_TOKENS := by
  refine ⟨?_, ?_, ?_⟩
  · have h1 : (similarity_search store score tok cid qv (some k) (some t)).length ≤
        (preTrimSelection store score cid qv (some k) (some t)).length :=
      (tokenTrim_sublist tok RAG_MAX_CONTEXT_TOKENS _ 0).length_le
    have h2 : (preTrimSelection store score cid qv (some k) (some t)).length ≤
        adaptiveK (effTopK (some k)) (thresholdFiltered store score cid qv (some k) (some t)) := by
      unfold preTrimSelection
      rw [List.length_take]
      exact Nat.min_le_left _ _
    have h3 := adaptiveK_le (effTopK (some k))
      (thresholdFiltered store score cid qv (some k) (some t))
    have h4 := effTopK_of_pos hk
    omega
  · intro c hc
    have hpre : c ∈ preTrimSelection store score cid qv (some k) (some t) :=
      (tokenTrim_sublist tok RAG_MAX_CONTEXT_TOKENS _ 0).subset hc
    have hfil : c ∈ thresholdFiltered store score cid qv (some k) (some t) := by
      unfold preTrimSelection at hpre
      exact List.take_subset _ _ hpre
    exact le_trans (le_effThreshold t) (mem_thresholdFiltered_sim hfil)
  · have hs := tokenTrim_sum tok RAG_MAX_CONTEXT_TOKENS
      (preTrimSelection store score cid qv (some k) (some t)) 0 (Nat.zero_le _)
    simpa [similarity_search] using hs

/-- Witness for C6 at a concrete store, scorer and tenant. -/
theorem C6_similarity_search_bounds_witness :
    (similarity_search c6store c6score c6tok "tenant-b" [] (some 5) (some (mkRat 1 5))).length ≤ 5 ∧
    (∀ c ∈ similarity_search c6store c6score c6tok "tenant-b" [] (some 5) (some (mkRat 1 5)),
      mkRat 1 5 ≤ c.similarity) ∧
    ((similarity_search c6store c6score c6tok "tenant-b" [] (some 5) (some (mkRat 1 5))).map
      (fun c => c6tok c.content)).sum ≤ RAG_MAX_CONTEXT_TOKENS :=
  C6_similarity_search_bounds c6store c6score c6tok "tenant-b" [] 5 (mkRat 1 5) (by norm_num)

/-- C7 (amended): when the best surviving score exceeds 0.75 the pre-trim
selection keeps `min(top_k, max(3, len(filtered)))` candidates truncated at
`len(filtered)` — never more than `top_k`, and never fewer than
`min(3, len(filtered))` provided `top_k ≥ 3` (as the configured default
`top_k = 5` is); otherwise it keeps exactly `min(top_k, len(filtered))`. -/
theorem C7_adaptive_sizing (store : List EmbRow) (score : List ℚ → List ℚ → ℚ)
    (cid : String) (qv : List ℚ) (k? : Option Nat) (t? : Option ℚ) :
    (confidentMatch (thresholdFiltered store score cid qv k? t?) = true →
      (preTrimSelection store score cid qv k? t?).length =
        min (min (effTopK k?) (max 3 (thresholdFiltered store score cid qv k? t?).length))
          (thresholdFiltered store score cid qv k? t?).length ∧
      (preTrimSelection store score cid qv k? t?).length ≤ effTopK k? ∧
      (3 ≤ effTopK k? →
        min 3 (thresholdFiltered store score cid qv k? t?).length ≤
          (preTrimSelection store score cid qv k? t?).length)) ∧
    (confidentMatch (thresholdFiltered store score cid qv k? t?) = false →
      (preTrimSelection store score cid qv k? t?).length =
        min (effTopK k?) (thresholdFiltered store score cid qv k? t?).length) := by
  have hpre : preTrimSelection store score cid qv k? t? =
      (thresholdFiltered store score cid qv k? t?).take
        (adaptiveK (effTopK k?) (thresholdFiltered store score cid qv k? t?)) := rfl
  constructor
  · intro h
    have he : (preTrimSelection store score cid qv k? t?).length =
        min (min (effTopK k?) (max 3 (thresholdFiltered store score cid qv k? t?).length))
          (thresholdFiltered store score cid qv k? t?).length := by
      rw [hpre, List.length_take]
      unfold adaptiveK
      rw [if_pos h]
    refine ⟨he, ?_, fun h3 => ?_⟩ <;> rw [he] <;> omega
  · intro h
    have he : (preTrimSelection store score cid qv k? t?).length =
        min (min (effTopK k?) (thresholdFiltered store score cid qv k? t?).length)
          (thresholdFiltered store score cid qv k? t?).length := by
      rw [hpre, List.length_take]
      unfold adaptiveK
      rw [if_neg (by rw [h]; exact Bool.false_ne_true)]
    rw [he]
    omega

/-- Counterexample to C7 as stated: with `top_k = 1` and two surviving
candidates whose best score exceeds 0.75, the pre-trim selection keeps one
candidate, fewer than `min(3, len(filtered)) = 2`. -/
theorem C7_small_topk_counterexample :
    confidentMatch (thresholdFiltered c7store c7score "tenant-a" [] (some 1) (some (mkRat 1 10))) = true ∧
    (thresholdFiltered c7store c7score "tenant-a" [] (some 1) (some (mkRat 1 10))).length = 2 ∧
    (preTrimSelection c7store c7score "tenant-a" [] (some 1) (some (mkRat 1 10))).length = 1 ∧
    (preTrimSelection c7store c7score "tenant-a" [] (some 1) (some (mkRat 1 10))).length <
      min 3 (thresholdFiltered c7store c7score "tenant-a" [] (some 1) (some (mkRat 1 10))).length := by
  exact ⟨by decide, by decide, by decide, by decide⟩

/-- Witness for C7 at the configured default `top_k = 5`: both the
confident and the non-confident branch at concrete stores. -/
theorem C7_adaptive_sizing_witness :
    ((preTrimSelection c7store c7score "tenant-a" [] (some 5) (some (mkRat 1 10))).length =
      min (min (effTopK (some 5)) (max 3 (thresholdFiltered c7store c7score "tenant-a" [] (some 5) (some (mkRat 1 10))).length))
        (thresholdFiltered c7store c7score "tenant-a" [] (some 5) (some (mkRat 1 10))).length ∧
     (preTrimSelection c7store c7score "tenant-a" [] (some 5) (some (mkRat 1 10))).length ≤ effTopK (some 5) ∧
     (3 ≤ effTopK (some 5) →
       min 3 (thresholdFiltered c7store c7score "tenant-a" [] (some 5) (some (mkRat 1 10))).length ≤
         (preTrimSelection c7store c7score "tenant-a" [] (some 5) (some (mkRat 1 10))).length)) ∧
    (preTrimSelection c6store c6score "tenant-b" [] (some 5) (some (mkRat 1 5))).length =
      min (effTopK (some 5)) (thresholdFiltered c6store c6score "tenant-b" [] (some 5) (some (mkRat 1 5))).length :=
  ⟨(C7_adaptive_sizing c7store c7score "tenant-a" [] (some 5) (some (mkRat 1 10))).1 (by decide),
   (C7_adaptive_sizing c6store c6score "tenant-b" [] (some 5) (some (mkRat 1 5))).2 (by decide)⟩

/-- C10: passing `top_k = 0` or `similarity_threshold = 0.0` silently
selects the configured defaults (5 and 0.20) through Python truthiness, so
`similarity_search` with the zero arguments equals `similarity_search` with
the defaults, a zero `top_k` does not force an empty result, and a zero
threshold does not disable filtering (a chunk scoring 0.1 ≥ 0 is still
dropped). -/
theorem C10_falsy_defaulting :
    effTopK (some 0) = RAG_TOP_K ∧ RAG_TOP_K = 5 ∧
    effThreshold (some 0) = RAG_SIMILARITY_THRESHOLD ∧ RAG_SIMILARITY_THRESHOLD = 1/5 ∧
    (∀ store score tok cid qv,
      similarity_search store score tok cid qv (some 0) (some 0) =
        similarity_search store score tok cid qv none none) ∧
    similarity_search c6store c6score c6tok "tenant-b" [] (some 0) none ≠ [] ∧
    (0:ℚ) ≤ mkRat 1 10 ∧
    similarity_search c10store c10score c6tok "tenant-c" [] none (some 0) = [] := by
  refine ⟨rfl, rfl, by simp [effThreshold], ?_, fun _ _ _ _ _ => rfl, by decide, by decide, by decide⟩
  show mkRat 1 5 = 1/5
  rw [Rat.mkRat_eq_div]
  norm_num

/- ──────────────────────────────────────────────────
   Orchestration lemmas and claims C1, C2, C3, C8
   ────────────────────────────────────────────────── -/

theorem mem_insertDescBySim {x c : RetrievedChunk} {l : List RetrievedChunk} :
    x ∈ insertDescBySim c l ↔ x = c ∨ x ∈ l := by
  induction l with
  | nil => simp [insertDescBySim]
  | cons d rest ih =>
    unfold insertDescBySim
    by_cases h : d.similarity < c.similarity
    · rw [if_pos h]
      simp [List.mem_cons]
    · rw [if_neg h]
      simp [List.mem_cons, ih]
      tauto

theorem mem_sortDescBySim {x : RetrievedChunk} {l : List RetrievedChunk} :
    x ∈ sortDescBySim l ↔ x ∈ l := by
  induction l with
  | nil => simp [sortDescBySim]
  | cons c rest ih => simp [sortDescBySim, mem_insertDescBySim, ih]

theorem preTrimSelection_eq (store : List EmbRow) (score : List ℚ → List ℚ → ℚ)
    (cid : String) (qv : List ℚ) (k? : Option Nat) (t? : Option ℚ) :
    preTrimSelection store score cid qv k? t? =
      (thresholdFiltered store score cid qv k? t?).take
        (adaptiveK (effTopK k?) (thresholdFiltered store score cid qv k? t?)) := rfl

theorem similarity_search_tenant_scoped {store : List EmbRow}
    {score : List ℚ → List ℚ → ℚ} {tok : String → Nat} {cid : String} {qv : List ℚ}
    {k? : Option Nat} {t? : Option ℚ} {c : RetrievedChunk}
    (h : c ∈ similarity_search store score tok cid qv k? t?) :
    ∃ r ∈ store, r.chatbot_id = cid ∧ c = scoreRow score qv r := by
  have hpre : c ∈ preTrimSelection store score cid qv k? t? :=
    (tokenTrim_sublist tok RAG_MAX_CONTEXT_TOKENS _ 0).subset h
  rw [preTrimSelection_eq] at hpre
  have hfil : c ∈ thresholdFiltered store score cid qv k? t? :=
    List.take_subset _ _ hpre
  unfold thresholdFiltered at hfil
  have hfetch : c ∈ fetchCandidates store score cid qv (effTopK k? * 2) :=
    (List.mem_filter.mp hfil).1
  unfold fetchCandidates at hfetch
  have hsort : c ∈ sortDescBySim
      ((store.filter (fun r => r.chatbot_id = cid)).map (scoreRow score qv)) :=
    List.take_subset _ _ hfetch
  have hmap := mem_sortDescBySim.mp hsort
  rcases List.mem_map.mp hmap with ⟨r, hr, hrc⟩
  have hrs := List.mem_filter.mp hr
  exact ⟨r, hrs.1, by simpa using hrs.2, hrc.symm⟩

theorem filter_tenant_idem (store : List ExcelRow) (cid : String) :
    ((store.filter (fun r => r.chatbot_id = cid)).filter (fun r => r.chatbot_id = cid)) =
      store.filter (fun r => r.chatbot_id = cid) := by
  rw [List.filter_filter]
  simp

theorem get_excel_schema_tenant_scoped (store : List ExcelRow) (cid : String) :
    get_excel_schema (store.filter (fun r => r.chatbot_id = cid)) cid =
      get_excel_schema store cid := by
  unfold get_excel_schema
  rw [filter_tenant_idem]

theorem check_has_excel_data_tenant_scoped (store : List ExcelRow) (cid : String) :
    check_has_excel_data (store.filter (fun r => r.chatbot_id = cid)) cid =
      check_has_excel_data store cid := by
  unfold check_has_excel_data
  rw [filter_tenant_idem]

theorem format_sql_response_events (w : LlmWorld) (question : String)
    (rows : List RowData) (intent : String) :
    (format_sql_response w question rows intent).2 = [] ∨
      (format_sql_response w question rows intent).2 = [CallEv.completionCall] := by
  unfold format_sql_response
  by_cases h : rows = []
  · rw [if_pos h]; left; rfl
  · rw [if_neg h]; right; rfl

theorem executorCall_valid {w : LlmWorld} {store : List ExcelRow} {cid question sql : String}
    (h : CallEv.executorCall sql ∈ (process_excel_query w store cid question).2) :
    w.genSql = Except.ok sql ∧ (validate_sql sql).1 = true := by
  unfold process_excel_query at h
  by_cases h1 : detect_intent question = "SEMANTIC"
  · rw [if_pos h1] at h; simp at h
  · rw [if_neg h1] at h
    by_cases h2 : (get_excel_schema store cid).sheets = []
    · rw [if_pos h2] at h; simp at h
    · rw [if_neg h2] at h
      cases hg : w.genSql with
      | error e => rw [hg] at h; simp at h
      | ok sql0 =>
        rw [hg] at h
        dsimp only at h
        by_cases h3 : (validate_sql sql0).1 = false
        · rw [if_pos h3] at h; simp at h
        · rw [if_neg h3] at h
          have hv : (validate_sql sql0).1 = true := by
            cases hb : (validate_sql sql0).1
            · exact absurd hb h3
            · rfl
          cases hr : w.runSql (addLimitSafeguard sql0) cid with
          | error e =>
            rw [hr] at h
            simp at h
            exact ⟨by rw [h], by rw [h]; exact hv⟩
          | ok rows =>
            rw [hr] at h
            dsimp only at h
            rcases hfmt : format_sql_response w question rows (detect_intent question)
              with ⟨fres, fevs⟩
            have hevs : fevs = [] ∨ fevs = [CallEv.completionCall] := by
              have hfe := format_sql_response_events w question rows (detect_intent question)
              rw [hfmt] at hfe
              exact hfe
            rw [hfmt] at h
            cases fres with
            | ok resp =>
              simp at h
              rcases h with h | h
              · exact ⟨by rw [h], by rw [h]; exact hv⟩
              · rcases hevs with he | he <;> rw [he] at h <;> simp at h
            | error e =>
              simp at h
              rcases h with h | h
              · exact ⟨by rw [h], by rw [h]; exact hv⟩
              · rcases hevs with he | he <;> rw [he] at h <;> simp at h

theorem executorCall_chat {w : LlmWorld} {excelStore : List ExcelRow}
    {embStore : List EmbRow} {score : List ℚ → List ℚ → ℚ} {tok : String → Nat}
    {cid question : String} {qEmb : List ℚ} {sql : String}
    (h : CallEv.executorCall sql ∈
      (process_chat_message w excelStore embStore score tok cid question qEmb).2) :
    CallEv.executorCall sql ∈ (process_excel_query w excelStore cid question).2 := by
  unfold process_chat_message at h
  by_cases hx : check_has_excel_data excelStore cid = true
  · rw [if_pos hx] at h
    rcases hpe : process_excel_query w excelStore cid question with ⟨r, evs⟩
    rw [hpe] at h
    cases r with
    | some resp => simpa using h
    | none =>
      dsimp only at h
      simp [semanticPath] at h
      exact h
  · rw [if_neg hx] at h
    simp [semanticPath] at h

theorem process_excel_query_none_cases (w : LlmWorld) (store : List ExcelRow)
    (cid question : String)
    (hcase : detect_intent question = "SEMANTIC" ∨
      (get_excel_schema store cid).sheets = [] ∨
      (∃ e, w.genSql = Except.error e) ∨
      (∃ sql, w.genSql = Except.ok sql ∧ (validate_sql sql).1 = false) ∨
      (∃ sql e, w.genSql = Except.ok sql ∧ (validate_sql sql).1 = true ∧
        w.runSql (addLimitSafeguard sql) cid = Except.error e)) :
    (process_excel_query w store cid question).1 = none := by
  unfold process_excel_query
  by_cases h1 : detect_intent question = "SEMANTIC"
  · rw [if_pos h1]
  · rw [if_neg h1]
    by_cases h2 : (get_excel_schema store cid).sheets = []
    · rw [if_pos h2]
    · rw [if_neg h2]
      cases hg : w.genSql with
      | error e => rfl
      | ok sql =>
        dsimp only
        by_cases h3 : (validate_sql sql).1 = false
        · rw [if_pos h3]
        · rw [if_neg h3]
          cases hr : w.runSql (addLimitSafeguard sql) cid with
          | error e => rfl
          | ok rows =>
            dsimp only
            exfalso
            rcases hcase with h | h | ⟨e, he⟩ | ⟨s, hs, hv⟩ | ⟨s, e, hs, hv, hrun⟩
            · exact absurd h h1
            · exact absurd h h2
            · rw [hg] at he; exact absurd he (by simp)
            · rw [hg] at hs
              injection hs with hs
              subst hs
              exact absurd hv h3
            · rw [hg] at hs
              injection hs with hs
              subst hs
              rw [hr] at hrun
              exact absurd hrun (by simp)

theorem process_chat_message_no_excel {w : LlmWorld} {excelStore : List ExcelRow}
    {embStore : List EmbRow} {score : List ℚ → List ℚ → ℚ} {tok : String → Nat}
    {cid question : String} {qEmb : List ℚ}
    (h : check_has_excel_data excelStore cid = false) :
    process_chat_message w excelStore embStore score tok cid question qEmb =
      semanticPath w embStore score tok cid qEmb := by
  unfold process_chat_message
  rw [if_neg (by rw [h]; exact Bool.false_ne_true)]

theorem process_chat_message_fallback {w : LlmWorld} {excelStore : List ExcelRow}
    {embStore : List EmbRow} {score : List ℚ → List ℚ → ℚ} {tok : String → Nat}
    {cid question : String} {qEmb : List ℚ}
    (h : (process_excel_query w excelStore cid question).1 = none) :
    (process_chat_message w excelStore embStore score tok cid question qEmb).1 =
      (semanticPath w embStore score tok cid qEmb).1 := by
  unfold process_chat_message
  by_cases hx : check_has_excel_data excelStore cid = true
  · rw [if_pos hx]
    rcases hpe : process_excel_query w excelStore cid question with ⟨r, evs⟩
    rw [hpe] at h
    simp at h
    subst h
    rfl
  · rw [if_neg hx]

/- ──────────────────────────────────────────────────
   Concrete worlds and stores for the orchestration claims
   ────────────────────────────────────────────────── -/

/- ──────────────────────────────────────────────────
   Claims C1, C2, C3, C8
   ────────────────────────────────────────────────── -/

/-- C1: tenant isolation. Every chunk the similarity search returns comes
from a row of the requesting tenant (the fetch is predicated on
`chatbot_id = :chatbot_id`); the schema-inspection reads (distinct sheets,
sample row, counts) and the has-structured-data probe depend only on the
tenant's rows — restricting the store to the tenant beforehand changes
nothing; and a generated SQL statement reaches the executor only after
`validate_sql` passed, which forces a textual `chatbot_id` reference,
while the tenant identifier is supplied to the executor as a bound
parameter by construction of `execute_safe_query` and `process_excel_query`. -/
theorem C1_tenant_isolation (excelStore : List ExcelRow) (embStore : List EmbRow)
    (score : List ℚ → List ℚ → ℚ) (tok : String → Nat) (cid : String) (qv : List ℚ)
    (k? : Option Nat) (t? : Option ℚ) :
    (∀ c ∈ similarity_search embStore score tok cid qv k? t?,
      ∃ r ∈ embStore, r.chatbot_id = cid ∧ c = scoreRow score qv r) ∧
    get_excel_schema (excelStore.filter (fun r => r.chatbot_id = cid)) cid =
      get_excel_schema excelStore cid ∧
    check_has_excel_data (excelStore.filter (fun r => r.chatbot_id = cid)) cid =
      check_has_excel_data excelStore cid ∧
    (∀ (w : LlmWorld) (question sql : String) (qEmb : List ℚ),
      CallEv.executorCall sql ∈
        (process_chat_message w excelStore embStore score tok cid question qEmb).2 →
      (validate_sql sql).1 = true ∧
      isInfixL CHATBOT_ID_REF.data (lowerL sql.data) = true) := by
  refine ⟨fun c hc => similarity_search_tenant_scoped hc,
    get_excel_schema_tenant_scoped excelStore cid,
    check_has_excel_data_tenant_scoped excelStore cid,
    fun w question sql qEmb h => ?_⟩
  have hvalid := (executorCall_valid (executorCall_chat h)).2
  exact ⟨hvalid, ((validate_sql_true_iff sql).mp hvalid).2.2.2.2⟩

/-- Witness for C1: a run in which the structured path actually executes a
generated statement; the executed statement passed validation and contains
the tenant reference. -/
theorem C1_tenant_isolation_witness :
    (validate_sql VALID_TENANT_SQL).1 = true ∧
    isInfixL CHATBOT_ID_REF.data (lowerL VALID_TENANT_SQL.data) = true :=
  (C1_tenant_isolation [excelRow1] [] c6score c6tok "tenant-x" [] none none).2.2.2
    wExec "how many rows" VALID_TENANT_SQL [] (by decide)

/-- C2: routing and fallback. A tenant without structured rows always takes
the semantic path; on SEMANTIC intent the structured path declines at once,
issuing no schema, generator, validator or executor call; an empty schema,
a generation failure, a validation failure and an execution failure each
make `process_excel_query` return `none`; and whenever it returns `none`
the router produces the semantic path's response without surfacing an
error. -/
theorem C2_routing_fallback (w : LlmWorld) (excelStore : List ExcelRow)
    (embStore : List EmbRow) (score : List ℚ → List ℚ → ℚ) (tok : String → Nat)
    (cid question : String) (qEmb : List ℚ) :
    (check_has_excel_data excelStore cid = false →
      process_chat_message w excelStore embStore score tok cid question qEmb =
        semanticPath w embStore score tok cid qEmb) ∧
    (detect_intent question = "SEMANTIC" →
      process_excel_query w excelStore cid question = (none, [])) ∧
    ((get_excel_schema excelStore cid).sheets = [] →
      (process_excel_query w excelStore cid question).1 = none) ∧
    (∀ e, w.genSql = Except.error e →
      (process_excel_query w excelStore cid question).1 = none) ∧
    (∀ sql, w.genSql = Except.ok sql → (validate_sql sql).1 = false →
      (process_excel_query w excelStore cid question).1 = none) ∧
    (∀ sql e, w.genSql = Except.ok sql → (validate_sql sql).1 = true →
      w.runSql (addLimitSafeguard sql) cid = Except.error e →
      (process_excel_query w excelStore cid question).1 = none) ∧
    ((process_excel_query w excelStore cid question).1 = none →
      (process_chat_message w excelStore embStore score tok cid question qEmb).1 =
        (semanticPath w embStore score tok cid qEmb).1) := by
  refine ⟨fun h => process_chat_message_no_excel h,
    fun h => ?_,
    fun h => process_excel_query_none_cases w excelStore cid question (Or.inr (Or.inl h)),
    fun e he => process_excel_query_none_cases w excelStore cid question
      (Or.inr (Or.inr (Or.inl ⟨e, he⟩))),
    fun sql hs hv => process_excel_query_none_cases w excelStore cid question
      (Or.inr (Or.inr (Or.inr (Or.inl ⟨sql, hs, hv⟩)))),
    fun sql e hs hv hr => process_excel_query_none_cases w excelStore cid question
      (Or.inr (Or.inr (Or.inr (Or.inr ⟨sql, e, hs, hv, hr⟩)))),
    fun h => process_chat_message_fallback h⟩
  unfold process_excel_query
  rw [if_pos h]

/-- Witness for C2 at concrete tenants, worlds and questions: no structured
rows forces the semantic path; a SEMANTIC question declines with an empty
event trace; a generation failure declines; and the router falls back to
the semantic answer. -/
theorem C2_routing_fallback_witness :
    process_chat_message w0 [] [] c6score c6tok "tenant-x" "how many rows" [] =
      semanticPath w0 [] c6score c6tok "tenant-x" [] ∧
    process_excel_query w0 [excelRow1] "tenant-x" "tell me about this" = (none, []) ∧
    (process_excel_query w0 [excelRow1] "tenant-x" "how many rows").1 = none ∧
    (process_chat_message w0 [excelRow1] [] c6score c6tok "tenant-x" "how many rows" []).1 =
      (semanticPath w0 [] c6score c6tok "tenant-x" []).1 :=
  ⟨(C2_routing_fallback w0 [] [] c6score c6tok "tenant-x" "how many rows" []).1 (by decide),
   (C2_routing_fallback w0 [excelRow1] [] c6score c6tok "tenant-x" "tell me about this" []).2.1
     (by decide),
   (C2_routing_fallback w0 [excelRow1] [] c6score c6tok "tenant-x" "how many rows" []).2.2.2.1
     "llm down" rfl,
   (C2_routing_fallback w0 [excelRow1] [] c6score c6tok "tenant-x" "how many rows" []).2.2.2.2.2.2
     (by decide)⟩

/-- C3 (amended): composing a response from an empty structured query
result returns the fixed no-matching-data message without any completion
call; the semantic path, however, always invokes the completion gateway
exactly once, also when the retrieved chunk list is empty — an empty chunk
list does not short-circuit to the fixed message. -/
theorem C3_empty_evidence_composition (w : LlmWorld) (question intent : String)
    (embStore : List EmbRow) (score : List ℚ → List ℚ → ℚ) (tok : String → Nat)
    (cid : String) (qEmb : List ℚ) :
    format_sql_response w question [] intent = (Except.ok NO_DATA_MESSAGE, []) ∧
    (semanticPath w embStore score tok cid qEmb).2 = [CallEv.completionCall] :=
  ⟨rfl, rfl⟩

/-- Counterexample to C3 as stated: a tenant with no stored chunks — the
semantic retrieval returns the empty list, yet the completion gateway is
invoked and its text, not the fixed no-matching-data message, is the
response. -/
theorem C3_semantic_empty_counterexample :
    similarity_search [] c6score c6tok "tenant-y" [] none none = [] ∧
    (process_chat_message w0 [] [] c6score c6tok "tenant-y" "any question" []).1.response =
      "semantic answer" ∧
    (process_chat_message w0 [] [] c6score c6tok "tenant-y" "any question" []).1.response ≠
      NO_DATA_MESSAGE ∧
    CallEv.completionCall ∈
      (process_chat_message w0 [] [] c6score c6tok "tenant-y" "any question" []).2 :=
  ⟨by decide, by decide, by decide, by decide⟩

/-- C8: a query without a LIMIT clause (checked case-insensitively) is
executed with " LIMIT 1000" appended after stripping trailing whitespace
and semicolons, so any executor honouring the appended SQL row cap returns
at most 1000 rows; a query already containing LIMIT is executed unchanged. -/
theorem C8_row_cap (run : String → String → List RowData) (sql cid : String)
    (hrun : ∀ q c, (run (q ++ " LIMIT 1000") c).length ≤ 1000) :
    (isInfixL LIMIT_TOKEN.data (upperL sql.data) = false →
      addLimitSafeguard sql =
        String.mk (dropRightWhile (fun c => c = ';') (dropRightWhile wsChar sql.data)) ++
          " LIMIT 1000" ∧
      (execute_safe_query run sql cid).length ≤ 1000) ∧
    (isInfixL LIMIT_TOKEN.data (upperL sql.data) = true →
      execute_safe_query run sql cid = run sql cid) := by
  constructor
  · intro h
    have ha : addLimitSafeguard sql =
        String.mk (dropRightWhile (fun c => c = ';') (dropRightWhile wsChar sql.data)) ++
          " LIMIT 1000" := by
      unfold addLimitSafeguard
      rw [if_neg (by rw [h]; exact Bool.false_ne_true)]
      rfl
    refine ⟨ha, ?_⟩
    unfold execute_safe_query
    rw [ha]
    exact hrun _ _
  · intro h
    unfold execute_safe_query addLimitSafeguard
    rw [if_pos h]

/-- Witness for C8: with an executor that returns no rows, a trailing
semicolon is stripped and the cap appended, and a query that already
carries a LIMIT runs unchanged. -/
theorem C8_row_cap_witness :
    (addLimitSafeguard "SELECT a FROM excel_rows WHERE chatbot_id = :chatbot_id;" =
      String.mk (dropRightWhile (fun c => c = ';')
        (dropRightWhile wsChar "SELECT a FROM excel_rows WHERE chatbot_id = :chatbot_id;".data)) ++
        " LIMIT 1000" ∧
     (execute_safe_query (fun _ _ => [])
       "SELECT a FROM excel_rows WHERE chatbot_id = :chatbot_id;" "t").length ≤ 1000) ∧
    execute_safe_query (fun _ _ => [])
      "SELECT a FROM t WHERE chatbot_id = :chatbot_id LIMIT 20" "t" = [] :=
  ⟨(C8_row_cap (fun _ _ => []) "SELECT a FROM excel_rows WHERE chatbot_id = :chatbot_id;" "t"
      (fun _ _ => by simp)).1 (by decide),
   (C8_row_cap (fun _ _ => []) "SELECT a FROM t WHERE chatbot_id = :chatbot_id LIMIT 20" "t"
      (fun _ _ => by simp)).2 (by decide)⟩

end Docubot
